import Mathlib

/-!
Shallow embedding of the client-side authentication session manager of the
MLOps-Monitoring frontend.

Sources embedded here:
- `frontend/src/contexts/AuthContext.tsx` (the unnamed source part holding
  `AuthState`, `authReducer`, `initializeAuth`, `login`, `register`, `logout`,
  `updateUser`);
- `frontend/src/services/authService.ts` (the axios client with its request
  and response interceptors, and `authService.logout`);
- `frontend/src/types/user.ts` (the `User` record and its nested types).

Modelling conventions:
- `localStorage` is an association list from keys to string values with
  `getItem` / `setItem` / `removeItem` mirroring the Web Storage semantics
  used by the code (set overwrites, remove deletes, get returns the value or
  null, rendered as `Option String`).
- The single-threaded, event-driven execution is modelled by explicit state
  passing: each operation is a function of the pre-state and of the outcome
  of its (unique) remote call, returning the post-state and, for `async`
  operations, the value or rejection the caller observes (`Except`).
- An axios rejection `error` is modelled by `ApiError`:
  `error.response?.status` becomes `status : Option Nat` (a transport failure
  with no response is `none`) and `error.response?.data?.detail` becomes
  `detail : Option String`.
- The interleaving of concurrent `login` calls is modelled at the granularity
  the JavaScript event loop gives: a `login` invocation is a `start` event
  (the synchronous segment up to `await loginUser`) followed later by a
  `resolve` event (the continuation after the promise settles); a schedule is
  any list of such events.
-/

namespace AuthCtx

/-! ## `types/user.ts` -/

/-- `UserRole` enum of `types/user.ts`. -/
inductive UserRole where
  | admin
  | data_scientist
  | ml_engineer
  | business_analyst
  | viewer
deriving DecidableEq, Repr

/-- `NotificationPreferences` of `types/user.ts`. -/
structure NotificationPreferences where
  email : Bool
  slack : Bool
  webhook : Bool
deriving DecidableEq, Repr

/-- `AlertPreferences` of `types/user.ts`. -/
structure AlertPreferences where
  drift_alerts : Bool
  performance_alerts : Bool
  compliance_alerts : Bool
deriving DecidableEq, Repr

/-- `UserPreferences` of `types/user.ts`; the untyped
`dashboard_layout?: Record<string, any>` is modelled as an optional
association list with string values. -/
structure UserPreferences where
  theme : Option String
  language : Option String
  timezone : Option String
  notification_preferences : Option NotificationPreferences
  dashboard_layout : Option (List (String × String))
  alert_preferences : Option AlertPreferences
deriving DecidableEq, Repr

/-- `User` of `types/user.ts`; optional fields (`full_name?`, ...) are
`Option`s. -/
structure User where
  id : String
  email : String
  username : String
  full_name : Option String
  role : UserRole
  organization_id : Option String
  subscription_tier : String
  subscription_status : String
  is_active : Bool
  is_verified : Bool
  preferences : UserPreferences
  created_at : String
  updated_at : Option String
  last_login : Option String
  gdpr_consent : Bool
  data_retention_consent : Bool
deriving DecidableEq, Repr

/-- `LoginResponse` of `types/user.ts`: the payload of
`POST /auth/login/email`. -/
structure LoginResponse where
  access_token : String
  token_type : String
  user : User
deriving DecidableEq, Repr

/-- An axios rejection: `status` models `error.response?.status` (`none` when
the request got no response at all) and `detail` models
`error.response?.data?.detail`. -/
structure ApiError where
  status : Option Nat
  detail : Option String
deriving DecidableEq, Repr

/-! ## `localStorage` -/

/-- The durable key-value store backing `localStorage`. -/
abbrev Storage := List (String × String)

/-- `localStorage.getItem(key)`; `none` renders JavaScript `null`. -/
def getItem (s : Storage) (key : String) : Option String :=
  (s.find? (fun p => p.1 = key)).map (fun p => p.2)

/-- `localStorage.setItem(key, value)`: overwrites any previous binding. -/
def setItem (s : Storage) (key value : String) : Storage :=
  (key, value) :: s.filter (fun p => ¬ p.1 = key)

/-- `localStorage.removeItem(key)`. -/
def removeItem (s : Storage) (key : String) : Storage :=
  s.filter (fun p => ¬ p.1 = key)

/-! ## `AuthContext.tsx`: state and reducer -/

/-- `AuthState` of `AuthContext.tsx`. -/
structure AuthState where
  user : Option User
  token : Option String
  isAuthenticated : Bool
  isLoading : Bool
deriving DecidableEq, Repr

/-- `AuthAction` of `AuthContext.tsx`. -/
inductive AuthAction where
  | LOGIN_START
  | LOGIN_SUCCESS (user : User) (token : String)
  | LOGIN_FAILURE (payload : String)
  | LOGOUT
  | SET_LOADING (payload : Bool)
  | UPDATE_USER (payload : User)
deriving DecidableEq, Repr

/-- `initialState` of `AuthContext.tsx`: the token field is read from
`localStorage` at store creation. -/
def initialState (storage : Storage) : AuthState :=
  { user := none
    token := getItem storage "token"
    isAuthenticated := false
    isLoading := true }

/-- `authReducer` of `AuthContext.tsx`. The TypeScript `switch` has a
`default: return state` arm; the inductive `AuthAction` covers every case, so
no default arm is needed here. -/
def authReducer (state : AuthState) (action : AuthAction) : AuthState :=
  match action with
  | .LOGIN_START =>
      { state with isLoading := true }
  | .LOGIN_SUCCESS user token =>
      { state with
          user := some user
          token := some token
          isAuthenticated := true
          isLoading := false }
  | .LOGIN_FAILURE _ =>
      { state with
          user := none
          token := none
          isAuthenticated := false
          isLoading := false }
  | .LOGOUT =>
      { state with
          user := none
          token := none
          isAuthenticated := false
          isLoading := false }
  | .SET_LOADING payload =>
      { state with isLoading := payload }
  | .UPDATE_USER payload =>
      { state with user := some payload }

/-! ## World: the mutable client-visible state -/

/-- The state an operation can observe and mutate: the durable storage, the
reducer state, and `window.location.href` (written by the 401 interceptor). -/
structure World where
  storage : Storage
  state : AuthState
  location : String
deriving DecidableEq, Repr

/-! ## `authService.ts`: response interceptor and service calls -/

/-- The error arm of `apiClient.interceptors.response` in `authService.ts`:
on a 401 response it removes the persisted token and navigates to `/login`;
in every case the rejection is passed on (`return Promise.reject(error)`). -/
def responseInterceptorErr (w : World) (e : ApiError) : World :=
  if e.status = some 401 then
    { w with
        storage := removeItem w.storage "token"
        location := "/login" }
  else
    w

/-- A request through `apiClient`: a fulfilled response is returned unchanged
(the success arm of the response interceptor is the identity); a rejection
first runs the error arm of the response interceptor and is then re-raised to
the caller. `remote` is the outcome produced by the network. -/
def apiRequest {α : Type} (w : World) (remote : Except ApiError α) :
    World × Except ApiError α :=
  match remote with
  | .ok a => (w, .ok a)
  | .error e => (responseInterceptorErr w e, .error e)

/-- `authService.logout` (`logoutUser`): client-side only, it removes the
persisted token and makes no remote call. -/
def logoutUser (s : Storage) : Storage :=
  removeItem s "token"

/-! ## `AuthContext.tsx`: operations -/

/-- One scheduling unit of a `login(email, password)` invocation: `start` is
the synchronous segment up to `await loginUser(email, password)` and
`resolve` is the continuation run when that promise settles with the given
outcome. -/
inductive LoginEvent where
  | start
  | resolve (outcome : Except ApiError LoginResponse)
deriving Repr

/-- Effect of one `login` scheduling unit, straight from `AuthContext.tsx`:
`start` dispatches `LOGIN_START`; a fulfilled `resolve` persists the token
and dispatches `LOGIN_SUCCESS`; a rejected `resolve` flows through the
response interceptor and dispatches `LOGIN_FAILURE` with
`error.response?.data?.detail || 'Login failed'`. The handlers consult no
attempt identifier: nothing ties a `resolve` to the `start` that issued it. -/
def loginStep (w : World) (e : LoginEvent) : World :=
  match e with
  | .start =>
      { w with state := authReducer w.state .LOGIN_START }
  | .resolve (.ok r) =>
      { w with
          storage := setItem w.storage "token" r.access_token
          state := authReducer w.state (.LOGIN_SUCCESS r.user r.access_token) }
  | .resolve (.error e) =>
      let w1 := responseInterceptorErr w e
      { w1 with
          state := authReducer w1.state (.LOGIN_FAILURE (e.detail.getD "Login failed")) }

/-- Run a schedule of `login` scheduling units left to right, in the order
the event loop executes them. -/
def runLogins (w : World) (events : List LoginEvent) : World :=
  events.foldl loginStep w

/-- `login(email, password)` of `AuthContext.tsx` run to completion with no
interleaved work: `LOGIN_START`, then the remote outcome; the second
component is what the caller of `login` observes (the error is re-thrown). -/
def login (w : World) (remote : Except ApiError LoginResponse) :
    World × Except ApiError Unit :=
  let w1 := loginStep w .start
  let w2 := loginStep w1 (.resolve remote)
  match remote with
  | .ok _ => (w2, .ok ())
  | .error e => (w2, .error e)

/-- `register(userData)` of `AuthContext.tsx`: dispatches `LOGIN_START`, then
awaits `registerUser(userData)`; on fulfilment only a toast is shown (no
further dispatch); on rejection it dispatches `LOGIN_FAILURE` with
`error.response?.data?.detail || 'Registration failed'` and re-throws. -/
def register (w : World) (remote : Except ApiError User) :
    World × Except ApiError Unit :=
  let w1 := { w with state := authReducer w.state .LOGIN_START }
  match remote with
  | .ok _ => (w1, .ok ())
  | .error e =>
      let w2 := responseInterceptorErr w1 e
      ({ w2 with
          state := authReducer w2.state
            (.LOGIN_FAILURE (e.detail.getD "Registration failed")) },
       .error e)

/-- `logout()` of `AuthContext.tsx`: `localStorage.removeItem('token')`, then
`logoutUser()` (which removes the same key again), then dispatch `LOGOUT`.
It is synchronous and total: no branch can fail. -/
def logout (w : World) : World :=
  let s1 := removeItem w.storage "token"
  let s2 := logoutUser s1
  { w with
      storage := s2
      state := authReducer w.state .LOGOUT }

/-- `updateUser(user)` of `AuthContext.tsx`: dispatch `UPDATE_USER`. -/
def updateUser (w : World) (u : User) : World :=
  { w with state := authReducer w.state (.UPDATE_USER u) }

/-- `initializeAuth` of `AuthContext.tsx`: read the persisted token; if
present, await `getCurrentUser()` (through `apiClient`, so a rejection flows
through the response interceptor) and dispatch `LOGIN_SUCCESS` with the
returned user and the stored token, or — on any rejection — remove the
persisted token and dispatch `LOGOUT`; if absent, dispatch
`SET_LOADING false`. `remote` is the outcome of `getCurrentUser()`; it is
consulted only when a token is present. -/
def initializeAuth (w : World) (remote : Except ApiError User) : World :=
  match getItem w.storage "token" with
  | some token =>
      match apiRequest w remote with
      | (w1, .ok user) =>
          { w1 with state := authReducer w1.state (.LOGIN_SUCCESS user token) }
      | (w1, .error _) =>
          { w1 with
              storage := removeItem w1.storage "token"
              state := authReducer w1.state .LOGOUT }
  | none =>
      { w with state := authReducer w.state (.SET_LOADING false) }

/-- The world at mount time: the store is created with `initialState` read
from the given storage, before `initializeAuth` runs. -/
def initWorld (storage : Storage) (loc : String) : World :=
  { storage := storage
    state := initialState storage
    location := loc }

/-! ## Concrete example values (used by counterexamples and witnesses) -/

/-- An empty `UserPreferences` record. -/
def exPrefs : UserPreferences :=
  { theme := none
    language := none
    timezone := none
    notification_preferences := none
    dashboard_layout := none
    alert_preferences := none }

/-- A concrete `User`. -/
def exUser1 : User :=
  { id := "1"
    email := "a@b.com"
    username := "alice"
    full_name := some "Alice"
    role := .viewer
    organization_id := none
    subscription_tier := "free"
    subscription_status := "active"
    is_active := true
    is_verified := true
    preferences := exPrefs
    created_at := "2024-01-01"
    updated_at := none
    last_login := none
    gdpr_consent := true
    data_retention_consent := true }

/-- A second concrete `User`, distinct from `exUser1`. -/
def exUser2 : User :=
  { exUser1 with id := "2", email := "c@d.com", username := "carol",
                 full_name := some "New Name" }

/-- A 401 rejection, as produced by an authorization failure. -/
def e401 : ApiError := { status := some 401, detail := some "Not authenticated" }

/-- A 500 rejection: a failure that is not an authorization failure. -/
def e500 : ApiError := { status := some 500, detail := none }

/-- A world that has fully initialized with no persisted token: anonymous,
not loading. -/
def exAnonWorld : World :=
  { storage := []
    state := { user := none, token := none, isAuthenticated := false, isLoading := false }
    location := "/login" }

/-- A world whose storage holds a previously persisted token `"OLD"`, at
store-creation time. -/
def exStoredWorld : World :=
  { storage := [("token", "OLD")]
    state := initialState [("token", "OLD")]
    location := "/" }

/-- An authenticated world: `exUser1` logged in with token `"T1"`. -/
def exAuthWorld : World :=
  { storage := [("token", "T1")]
    state := { user := some exUser1, token := some "T1",
               isAuthenticated := true, isLoading := false }
    location := "/dashboard" }

/-- A race of two overlapping login attempts: attempt A is issued first and
its response (token `"T1"`, `exUser1`) arrives last; attempt B is issued
second and its response (token `"T2"`, `exUser2`) arrives first. The event
loop therefore runs: A's start, B's start, B's resolution, A's resolution. -/
def raceSchedule : List LoginEvent :=
  [LoginEvent.start,
   LoginEvent.start,
   LoginEvent.resolve (.ok { access_token := "T2", token_type := "bearer", user := exUser2 }),
   LoginEvent.resolve (.ok { access_token := "T1", token_type := "bearer", user := exUser1 })]

/-! ## History predicates for the session invariant -/

/-- Tracks whether the most recent authentication attempt in an action
trace succeeded: `LOGIN_SUCCESS` records a success, `LOGIN_FAILURE` a
failure, every other action leaves the record unchanged (`none` = no
attempt yet). -/
def authOutcomeStep (o : Option Bool) (a : AuthAction) : Option Bool :=
  match a with
  | .LOGIN_SUCCESS _ _ => some true
  | .LOGIN_FAILURE _ => some false
  | _ => o

/-- Whether the last authentication attempt of an action trace succeeded. -/
def lastAuthOutcome (actions : List AuthAction) : Option Bool :=
  actions.foldl authOutcomeStep none

/-- The inductive invariant tying a reducer state to the outcome of the last
authentication attempt: when authenticated, the last attempt succeeded and
identity and credential are present; when not authenticated even though the
last attempt succeeded, the credential has been cleared (by a logout). -/
def AuthInv (s : AuthState) (o : Option Bool) : Prop :=
  (s.isAuthenticated = true → o = some true ∧ s.user.isSome ∧ s.token.isSome) ∧
  (s.isAuthenticated = false → o = some true → s.token = none)

/-! ## Storage lemmas -/

/-- Reading back a key just written. -/
theorem getItem_setItem_self (s : Storage) (k v : String) :
    getItem (setItem s k v) k = some v := by
  simp [getItem, setItem]

/-- Reading a key just removed yields nothing. -/
theorem getItem_removeItem_self (s : Storage) (k : String) :
    getItem (removeItem s k) k = none := by
  induction s with
  | nil => rfl
  | cons p t ih =>
      by_cases h : p.1 = k <;>
        simp_all [getItem, removeItem, List.filter_cons, List.find?]

/-- Removing a key twice is the same as removing it once. -/
theorem removeItem_idem (s : Storage) (k : String) :
    removeItem (removeItem s k) k = removeItem s k := by
  induction s with
  | nil => rfl
  | cons p t ih =>
      by_cases h : p.1 = k <;> simp_all [removeItem, List.filter_cons]

/-! ## Claim C1 -/

/-- Claim C1, counterexample: `login` in `AuthContext.tsx` carries no
sequence number — nothing in its resolution handler ties a result to the
attempt that issued it — so in `raceSchedule` the stale resolution of the
first-issued attempt A overwrites the state produced by the last-issued
attempt B: the final Session and persisted storage hold A's token `"T1"` and
A's user, not B's `"T2"`. This contradicts "a result arriving for an earlier
(stale) attempt is discarded and never overwrites the state produced by a
more recently issued attempt". -/
theorem stale_login_result_overwrites :
    (runLogins exAnonWorld raceSchedule).state.token = some "T1" ∧
    (runLogins exAnonWorld raceSchedule).state.user = some exUser1 ∧
    getItem (runLogins exAnonWorld raceSchedule).storage "token" = some "T1" ∧
    ("T1" : String) ≠ "T2" ∧ exUser1 ≠ exUser2 := by
  refine ⟨rfl, rfl, rfl, by decide, by decide⟩

/-- Claim C1, amended: the result of the most recently *resolved* login
attempt always wins — whatever schedule of starts and resolutions precedes
it, the final Session reflects exactly the last resolution applied, even
when that resolution belongs to an earlier-issued attempt: a schedule ending
in a successful resolution ends authenticated with that response's user and
token (also persisted), and one ending in a failed resolution ends in the
anonymous shape. There is no staleness guard. -/
theorem last_resolved_login_wins (w : World) (es : List LoginEvent)
    (r : LoginResponse) (e : ApiError) :
    ((runLogins w (es ++ [LoginEvent.resolve (.ok r)])).state =
      { user := some r.user, token := some r.access_token,
        isAuthenticated := true, isLoading := false } ∧
     getItem (runLogins w (es ++ [LoginEvent.resolve (.ok r)])).storage "token" =
       some r.access_token) ∧
    (runLogins w (es ++ [LoginEvent.resolve (.error e)])).state =
      { user := none, token := none, isAuthenticated := false, isLoading := false } := by
  refine ⟨⟨?_, ?_⟩, ?_⟩ <;>
    simp only [runLogins, List.foldl_append, List.foldl_cons, List.foldl_nil,
      loginStep, responseInterceptorErr, authReducer, getItem_setItem_self]

/-! ## Claim C2 -/

/-- Claim C2, counterexample: in `authService.ts` the response interceptor
ends with `return Promise.reject(error)`, so a 401 rejection of a request
made from an authenticated world is still delivered to the calling code as a
normal rejection, and the interceptor leaves the in-memory Session state
untouched (no dispatch; the state is reset only by the page reload that the
redirect causes). This contradicts "this AuthorizationError is never
surfaced to the calling UI code as a normal rejection". -/
theorem authorization_error_rethrown_to_caller :
    (apiRequest exAuthWorld (Except.error e401) : World × Except ApiError User).2
      = Except.error e401 ∧
    ((apiRequest exAuthWorld (Except.error e401) : World × Except ApiError User)).1.state
      = exAuthWorld.state ∧
    exAuthWorld.state.isAuthenticated = true :=
  ⟨rfl, rfl, rfl⟩

/-- Claim C2, amended: on any response with a 401 status, the interceptor
deletes the persisted Token and redirects to the login entry point; it does
not itself mutate the in-memory Session state, and the error is still
propagated to the caller as a normal rejection. -/
theorem interceptor_forces_logout_and_rethrows (w : World) (e : ApiError)
    (h : e.status = some 401) :
    responseInterceptorErr w e =
      { w with storage := removeItem w.storage "token", location := "/login" } ∧
    getItem (responseInterceptorErr w e).storage "token" = none ∧
    (responseInterceptorErr w e).state = w.state ∧
    (apiRequest w (Except.error e) : World × Except ApiError User).2 = Except.error e := by
  refine ⟨?_, ?_, ?_, rfl⟩ <;>
    simp [responseInterceptorErr, apiRequest, h, getItem_removeItem_self]

/-- Witness for `interceptor_forces_logout_and_rethrows` at `e401` and
`exAuthWorld`. -/
theorem interceptor_forces_logout_and_rethrows_witness :
    e401.status = some 401 ∧
    responseInterceptorErr exAuthWorld e401 =
      { exAuthWorld with storage := removeItem exAuthWorld.storage "token",
                         location := "/login" } :=
  ⟨rfl, (interceptor_forces_logout_and_rethrows exAuthWorld e401 rfl).1⟩

/-! ## Claim C3 -/

/-- Claim C3, counterexample: a login attempt that fails with a non-401
error (here a 500) leaves a previously persisted token `"OLD"` in durable
storage: the failure path of `login` in `AuthContext.tsx` never touches
`localStorage`, and the interceptor removes the token only on 401. This
contradicts "the Token is absent from durable persistence, regardless of
whether a Token had been persisted before the attempt". -/
theorem login_failure_preserves_stale_token :
    getItem ((login exStoredWorld (Except.error e500)).1).storage "token" = some "OLD" ∧
    ((login exStoredWorld (Except.error e500)).1).state =
      { user := none, token := none, isAuthenticated := false, isLoading := false } :=
  ⟨rfl, rfl⟩

/-- Claim C3, amended: after any failed `login(email, password)` the Session
state is anonymous (identity and credential cleared, `isAuthenticated` and
`isLoading` false) and the failure is re-thrown to the caller; the persisted
Token is removed exactly when the failure carries a 401 status (by the
global response interceptor) — under any other failure the persisted storage
is unchanged, so a previously persisted Token remains. -/
theorem login_failure_state_and_persistence (w : World) (e : ApiError) :
    ((login w (Except.error e)).1).state =
      { user := none, token := none, isAuthenticated := false, isLoading := false } ∧
    ((login w (Except.error e)).1).storage =
      (if e.status = some 401 then removeItem w.storage "token" else w.storage) ∧
    (login w (Except.error e)).2 = Except.error e := by
  refine ⟨?_, ?_, rfl⟩ <;>
    · simp only [login, loginStep, responseInterceptorErr]
      split <;> rfl

/-! ## Claim C4 -/

/-- Claim C4, counterexample: `register` in `AuthContext.tsx` dispatches
`LOGIN_START` before the remote call, so even a successful registration
changes the Session: starting from the settled anonymous world
(`isLoading = false`), after a successful `register` the Session has
`isLoading = true`. This contradicts "the Session state ... is unchanged
from its value before the call". -/
theorem register_success_sets_isLoading :
    exAnonWorld.state.isLoading = false ∧
    ((register exAnonWorld (Except.ok exUser1)).1).state.isLoading = true :=
  ⟨rfl, rfl⟩

/-- Claim C4, amended: `register` never authenticates and never writes a
Token, but it does mutate the Session: it dispatches `LOGIN_START`, so on a
successful remote call the only change is `isLoading := true` (storage
untouched and the call resolves normally); on a failed call the Session is
reset to the anonymous shape, the error is re-thrown, and storage is
changed only by the 401 interceptor (which can only delete the token). -/
theorem register_session_effects (w : World) :
    (∀ u : User,
      (register w (Except.ok u)).1 =
        { w with state := { w.state with isLoading := true } } ∧
      (register w (Except.ok u)).2 = Except.ok ()) ∧
    (∀ e : ApiError,
      ((register w (Except.error e)).1).state =
        { user := none, token := none, isAuthenticated := false, isLoading := false } ∧
      ((register w (Except.error e)).1).storage =
        (if e.status = some 401 then removeItem w.storage "token" else w.storage) ∧
      (register w (Except.error e)).2 = Except.error e) := by
  refine ⟨fun u => ⟨rfl, rfl⟩, fun e => ⟨?_, ?_, rfl⟩⟩ <;>
    · simp only [register, responseInterceptorErr]
      split <;> rfl

/-! ## Claim C5 -/

/-- Claim C5: `logout()` unconditionally moves the Session to the anonymous
shape and deletes the persisted token. It is modelled as a total function
with no error outcome because the source `logout` is synchronous and makes
no remote call at all (`authService.logout` is client-side only), so it can
never fail from the caller's perspective and no remote notification exists
whose outcome could matter. -/
theorem logout_unconditional (w : World) :
    (logout w).state =
      { user := none, token := none, isAuthenticated := false, isLoading := false } ∧
    getItem (logout w).storage "token" = none ∧
    (logout w).location = w.location := by
  refine ⟨rfl, ?_, rfl⟩
  simp [logout, logoutUser, getItem_removeItem_self]

/-! ## Claim C6 -/

/-- Claim C6: `initializeAuth` performs a single read of the persisted
token (the one `localStorage.getItem('token')` in its body) and, for every
storage contents and every remote outcome, starting from the mount world
(`initialState` over that same storage): if the token is absent the Session
ends in the settled anonymous shape with storage untouched; if present and
the get-current-identity call succeeds, the Session ends authenticated with
the returned Identity and the stored token, storage untouched; if present
and the call fails for any reason, the persisted token is removed and the
Session ends in the settled anonymous shape. -/
theorem initializeAuth_trichotomy (storage : Storage) (loc : String)
    (remote : Except ApiError User) :
    match getItem storage "token", remote with
    | none, _ =>
        initializeAuth (initWorld storage loc) remote =
          { storage := storage,
            state := { user := none, token := none,
                       isAuthenticated := false, isLoading := false },
            location := loc }
    | some t, .ok u =>
        initializeAuth (initWorld storage loc) remote =
          { storage := storage,
            state := { user := some u, token := some t,
                       isAuthenticated := true, isLoading := false },
            location := loc }
    | some _, .error _ =>
        (initializeAuth (initWorld storage loc) remote).state =
          { user := none, token := none,
            isAuthenticated := false, isLoading := false } ∧
        getItem (initializeAuth (initWorld storage loc) remote).storage "token" = none := by
  rcases hread : getItem storage "token" with _ | t <;> rcases remote with u | e <;>
    simp only [initializeAuth, initWorld, initialState, apiRequest,
      responseInterceptorErr, authReducer, hread]
  all_goals refine ⟨trivial, ?_⟩
  all_goals split
  all_goals simp [getItem_removeItem_self]

/-! ## Claim C7 -/

theorem authInv_step (s : AuthState) (o : Option Bool) (a : AuthAction)
    (h : AuthInv s o) : AuthInv (authReducer s a) (authOutcomeStep o a) := by
  obtain ⟨h1, h2⟩ := h
  cases a <;> simp_all [authReducer, authOutcomeStep, AuthInv]

theorem authInv_foldl (actions : List AuthAction) (s : AuthState)
    (o : Option Bool) (h : AuthInv s o) :
    AuthInv (actions.foldl authReducer s) (actions.foldl authOutcomeStep o) := by
  induction actions generalizing s o with
  | nil => exact h
  | cons a rest ih => exact ih _ _ (authInv_step s o a h)

/-- Claim C7, counterexample: starting from an empty storage, initialization
completes (leaving `isLoading = false`), and then a single `register` call
runs to successful completion — no login is ever issued and the initial
restoration is over — yet the Session ends with `isLoading = true`, because
`register` dispatches `LOGIN_START` and its success path never resets the
flag. This contradicts "`isLoading == true` holds only during an in-flight
login or the initial session restoration". -/
theorem isLoading_true_after_completed_register :
    (initializeAuth (initWorld [] "/") (Except.ok exUser1)).state.isLoading = false ∧
    ((register (initializeAuth (initWorld [] "/") (Except.ok exUser1))
        (Except.ok exUser2)).1).state.isLoading = true :=
  ⟨rfl, rfl⟩

/-- Claim C7, amended: in every state reachable by a trace of reducer
actions from a freshly created store, `isAuthenticated = true` holds iff the
identity and the credential are both present and the last authentication
attempt succeeded. The `isLoading` half of the claim must except `register`:
besides an in-flight login and the initial restoration, `isLoading` is also
true after any successfully completed `register` call, whose success path
never clears the flag it set. -/
theorem session_invariant_amended (storage : Storage) (actions : List AuthAction) :
    ((actions.foldl authReducer (initialState storage)).isAuthenticated = true ↔
      ((actions.foldl authReducer (initialState storage)).user.isSome ∧
       (actions.foldl authReducer (initialState storage)).token.isSome ∧
       lastAuthOutcome actions = some true)) ∧
    (∀ (w : World) (u : User), ((register w (Except.ok u)).1).state.isLoading = true) := by
  constructor
  · have hinv := authInv_foldl actions (initialState storage) none
      (by constructor <;> simp [initialState])
    obtain ⟨h1, h2⟩ := hinv
    constructor
    · intro hauth
      obtain ⟨ho, hu, ht⟩ := h1 hauth
      exact ⟨hu, ht, ho⟩
    · rintro ⟨hu, ht, ho⟩
      by_contra hne
      have hfalse : (actions.foldl authReducer (initialState storage)).isAuthenticated = false := by
        cases hx : (actions.foldl authReducer (initialState storage)).isAuthenticated
        · rfl
        · exact absurd hx hne
      have := h2 hfalse ho
      simp [lastAuthOutcome] at ho
      simp [this] at ht
  · intro w u
    rfl

/-! ## Claim C8 -/

/-- Claim C8: `updateUser` while authenticated replaces the cached Identity
wholesale with the supplied value and changes nothing else: the resulting
world is exactly the old world with `state.user := some u`, so storage (and
hence the persisted Token), location, the `token` field, `isAuthenticated`
and `isLoading` are all unchanged. -/
theorem updateUser_wholesale_replacement (w : World) (u : User)
    (_h : w.state.isAuthenticated = true) :
    updateUser w u = { w with state := { w.state with user := some u } } :=
  rfl

/-- Witness for `updateUser_wholesale_replacement`: replacing `exUser1` by
`exUser2` (whose `full_name` is `"New Name"`) in the authenticated world. -/
theorem updateUser_wholesale_replacement_witness :
    exAuthWorld.state.isAuthenticated = true ∧
    updateUser exAuthWorld exUser2 =
      { exAuthWorld with state := { exAuthWorld.state with user := some exUser2 } } :=
  ⟨rfl, updateUser_wholesale_replacement exAuthWorld exUser2 rfl⟩

/-! ## Claim C9 -/

/-- Claim C9: every operation that terminates with an error leaves the
Session in the settled anonymous shape (in particular `isLoading = false`):
a failed `login`, a failed `register`, a failed initialization (which only
performs a remote call when a token is persisted), and `logout` (which has
no error outcome at all) all end there — never stuck mid-transition. -/
theorem error_terminal_states :
    (∀ (w : World) (e : ApiError),
      ((login w (Except.error e)).1).state =
        { user := none, token := none, isAuthenticated := false, isLoading := false }) ∧
    (∀ (w : World) (e : ApiError),
      ((register w (Except.error e)).1).state =
        { user := none, token := none, isAuthenticated := false, isLoading := false }) ∧
    (∀ (w : World) (e : ApiError) (t : String),
      getItem w.storage "token" = some t →
      (initializeAuth w (Except.error e)).state =
        { user := none, token := none, isAuthenticated := false, isLoading := false }) ∧
    (∀ w : World, (logout w).state =
        { user := none, token := none, isAuthenticated := false, isLoading := false }) := by
  refine ⟨fun w e => ?_, fun w e => ?_, fun w e t ht => ?_, fun w => rfl⟩
  · simp only [login, loginStep, responseInterceptorErr]
    split <;> rfl
  · simp only [register, responseInterceptorErr]
    split <;> rfl
  · simp only [initializeAuth, apiRequest, ht, responseInterceptorErr]
    split <;> rfl

/-- Witness for `error_terminal_states`, discharging the persisted-token
hypothesis of its initialization conjunct at `exStoredWorld`. -/
theorem error_terminal_states_witness :
    getItem exStoredWorld.storage "token" = some "OLD" ∧
    (initializeAuth exStoredWorld (Except.error e500)).state =
      { user := none, token := none, isAuthenticated := false, isLoading := false } :=
  ⟨rfl, error_terminal_states.2.2.1 exStoredWorld e500 "OLD" rfl⟩

/-! ## Claim C10 -/

/-- Claim C10: `logout` is idempotent — applying it twice yields exactly the
same world (Session state, persisted storage, location) as applying it once,
since `LOGOUT` resets the same four fields and removing the `token` key is
idempotent. -/
theorem logout_idempotent (w : World) : logout (logout w) = logout w := by
  simp [logout, logoutUser, removeItem_idem, authReducer]

end AuthCtx
